import Mathlib

/-!
# Verification of the LinkedIn content-agent orchestration core

Shallow embedding of the stage-orchestration core of the `linkedinagent`
repository: the shared `State` record (`src/state.py`), the stage node
functions (`src/nodes/*.py`), the LangGraph wiring (`src/graph.py`,
`src/product_promotion_graph.py`), the best-effort extraction fallbacks
(`create_fallback_ideas`, the parsing part of `generate_linkedin_post`),
and the bounded image-job poll loop (`generate_image_with_kie_ai`).

External collaborators (the Groq LLM, the Apify scraper, the KIE image
backend, console input) are modelled as explicit parameters: each node
receives the outcome of its external calls as an `Except`/value argument.
A node that raises a Python exception past its own body is modelled as
returning `Except.error msg`; a node that returns a partial state dict is
modelled as returning `Except.ok delta`.

All strings in the embedding are ASCII, matching the string literals and
status values of the source; Python `str.strip` / `re` operations are
embedded for the ASCII fragment actually exercised by the code.
-/

namespace LinkedInAgent

/-- Python `str.isspace` characters relevant to `str.strip()` (ASCII fragment). -/
def pyIsSpace (c : Char) : Bool :=
  c = ' ' || c = '\t' || c = '\n' || c = '\r' || c = '\x0b' || c = '\x0c'

/-- Python `s.strip()`: remove leading and trailing whitespace. -/
def pyStrip (s : String) : String :=
  String.mk (((s.data.dropWhile pyIsSpace).reverse.dropWhile pyIsSpace).reverse)

/-- Python `s.split()` (no argument): maximal runs of non-whitespace characters. -/
def pyWordsAux : List Char → List Char → List String
  | [], acc => if acc.isEmpty then [] else [String.mk acc.reverse]
  | c :: rest, acc =>
    if pyIsSpace c then
      if acc.isEmpty then pyWordsAux rest []
      else String.mk acc.reverse :: pyWordsAux rest []
    else pyWordsAux rest (c :: acc)

/-- Python `s.split()` on a string. -/
def pyWords (s : String) : List String := pyWordsAux s.data []

/-- Split on the leftmost non-overlapping occurrences of a non-empty
separator, Python `s.split(sep)`.  The `fuel` argument starts at the length
of the character list and at least one character is consumed per step, so
the recursion is structural and the fuel never runs out. -/
def splitOnL (sep : List Char) : Nat → List Char → List Char → List (List Char)
  | 0, l, acc => [acc.reverse ++ l]
  | _ + 1, [], acc => [acc.reverse]
  | fuel + 1, c :: rest, acc =>
    if sep.isPrefixOf (c :: rest) then
      acc.reverse :: splitOnL sep fuel (List.drop (sep.length - 1) rest) []
    else
      splitOnL sep fuel rest (c :: acc)

/-- Python `s.split(sep)` for a non-empty separator string. -/
def pySplit (s sep : String) : List String :=
  (splitOnL sep.data s.data.length s.data []).map String.mk

/-- Python `s[:n]` on a string. -/
def pyTake (s : String) (n : Nat) : String := String.mk (s.data.take n)

/-- Python `s[n:]` on a string. -/
def pyDrop (s : String) (n : Nat) : String := String.mk (s.data.drop n)

/-- Python `s.startswith(p)`. -/
def pyStartsWith (s p : String) : Bool := p.data.isPrefixOf s.data

/-- Python regex `\w` on the ASCII fragment: letters, digits, underscore. -/
def isWordChar (c : Char) : Bool :=
  ('a' ≤ c && c ≤ 'z') || ('A' ≤ c && c ≤ 'Z') || ('0' ≤ c && c ≤ '9') || c = '_'

/-- ASCII alphanumeric, the class kept by `re.sub(r'[^a-zA-Z0-9]', '', w)`. -/
def isAsciiAlnum (c : Char) : Bool :=
  ('a' ≤ c && c ≤ 'z') || ('A' ≤ c && c ≤ 'Z') || ('0' ≤ c && c ≤ '9')

/-- One left-to-right scan implementing both `re.findall(r'#\w+', line)` (first
component: the matches, in order of first appearance) and
`re.sub(r'#\w+', '', line)` (second component: the characters not part of any
match).  A `#` not followed by a word character is not a match and is kept;
scanning resumes after each match.  The `fuel` argument is the length of the
remaining character list, so the recursion is structural. -/
def hashScanAux : Nat → List Char → (List String × List Char)
  | 0, l => ([], l)
  | _ + 1, [] => ([], [])
  | fuel + 1, '#' :: rest =>
    let w := rest.takeWhile isWordChar
    if w.isEmpty then
      let (ms, ks) := hashScanAux fuel rest
      (ms, '#' :: ks)
    else
      let (ms, ks) := hashScanAux fuel (rest.dropWhile isWordChar)
      (String.mk ('#' :: w) :: ms, ks)
  | fuel + 1, c :: rest =>
    let (ms, ks) := hashScanAux fuel rest
    (ms, c :: ks)

/-- Pair `(re.findall(r'#\w+', s), re.sub(r'#\w+', '', s))` as one scan. -/
def hashScan (s : String) : List String × String :=
  let (ms, ks) := hashScanAux s.data.length s.data
  (ms, String.mk ks)

/-! ## Data model (`src/state.py`) -/

/-- Model of `ContentIdea` (pydantic model in `src/state.py`). -/
structure ContentIdea where
  title : String
  description : String
  key_points : List String
  target_audience : String
  inspiration_sources : List String
  deriving Repr, DecidableEq

/-- Model of `ScrapedContent` (pydantic model in `src/state.py`); the free-form
`metadata` dict is not read by any embedded code path and is omitted. -/
structure ScrapedContent where
  source_type : String
  source_url : String
  title : String
  content : String
  transcript : Option String := none
  deriving Repr, DecidableEq

/-- Model of `LinkedInPost` (pydantic model in `src/state.py`). -/
structure LinkedInPost where
  title : String
  content : String
  hashtags : List String
  call_to_action : String
  estimated_engagement : String
  deriving Repr, DecidableEq

/-- Model of `GeneratedImage` (pydantic model in `src/state.py`). -/
structure GeneratedImage where
  image_path : String
  image_description : String
  prompt_used : String
  deriving Repr, DecidableEq

/-- An entry of the `messages` log. -/
structure Msg where
  role : String
  content : String
  deriving Repr, DecidableEq

/-- The shared workflow `State` (`src/state.py`).  Fields not read or written
by any embedded node (`research_data`, `google_doc`, `product_data`,
`uploaded_images`) are omitted; every status field is kept.  `user_choice`
is the dynamic key consulted by `choice_node`. -/
structure AgentState where
  topic : String := ""
  messages : List Msg := []
  scraped_content : List ScrapedContent := []
  scraping_status : String := "pending"
  scraping_errors : List String := []
  content_ideas : List ContentIdea := []
  selected_idea : Option ContentIdea := none
  research_status : String := "pending"
  linkedin_post : Option LinkedInPost := none
  writing_status : String := "pending"
  generated_image : Option GeneratedImage := none
  image_status : String := "pending"
  docs_status : String := "pending"
  user_approval : Option Bool := none
  approval_feedback : Option String := none
  linkedin_post_id : Option String := none
  posting_status : String := "pending"
  promotion_status : String := "pending"
  workflow_status : String := "initialized"
  error_message : Option String := none
  user_choice : Option Int := none
  deriving Repr, DecidableEq

/-- A partial state update returned by a node: `some v` means the key is
present in the returned dict (and overwrites the state's value on merge),
`none` means the key is absent (state value untouched).  `messages` is the
append-only log channel (`add_messages`): absent means the empty append. -/
structure Delta where
  topic : Option String := none
  messages : List Msg := []
  scraped_content : Option (List ScrapedContent) := none
  scraping_status : Option String := none
  scraping_errors : Option (List String) := none
  content_ideas : Option (List ContentIdea) := none
  selected_idea : Option (Option ContentIdea) := none
  research_status : Option String := none
  linkedin_post : Option (Option LinkedInPost) := none
  writing_status : Option String := none
  generated_image : Option (Option GeneratedImage) := none
  image_status : Option String := none
  docs_status : Option String := none
  user_approval : Option (Option Bool) := none
  approval_feedback : Option (Option String) := none
  linkedin_post_id : Option (Option String) := none
  posting_status : Option String := none
  promotion_status : Option String := none
  workflow_status : Option String := none
  error_message : Option (Option String) := none
  user_choice : Option (Option Int) := none
  deriving Repr, DecidableEq

/-- LangGraph merge of a node's returned dict into the state: every key
present in the delta overwrites the state's value; the `messages` channel
appends; absent keys leave the state untouched. -/
def merge (s : AgentState) (d : Delta) : AgentState where
  topic := d.topic.getD s.topic
  messages := s.messages ++ d.messages
  scraped_content := d.scraped_content.getD s.scraped_content
  scraping_status := d.scraping_status.getD s.scraping_status
  scraping_errors := d.scraping_errors.getD s.scraping_errors
  content_ideas := d.content_ideas.getD s.content_ideas
  selected_idea := d.selected_idea.getD s.selected_idea
  research_status := d.research_status.getD s.research_status
  linkedin_post := d.linkedin_post.getD s.linkedin_post
  writing_status := d.writing_status.getD s.writing_status
  generated_image := d.generated_image.getD s.generated_image
  image_status := d.image_status.getD s.image_status
  docs_status := d.docs_status.getD s.docs_status
  user_approval := d.user_approval.getD s.user_approval
  approval_feedback := d.approval_feedback.getD s.approval_feedback
  linkedin_post_id := d.linkedin_post_id.getD s.linkedin_post_id
  posting_status := d.posting_status.getD s.posting_status
  promotion_status := d.promotion_status.getD s.promotion_status
  workflow_status := d.workflow_status.getD s.workflow_status
  error_message := d.error_message.getD s.error_message
  user_choice := d.user_choice.getD s.user_choice

/-! ## Extraction fallbacks -/

/-- Whether a section of raw text yields a fallback idea: the guard
`if section.strip() and len(section.strip()) > 50` of `create_fallback_ideas`
(`src/nodes/extract_ideas_node.py`). -/
def sectionQualifies (sec : String) : Bool :=
  pyStrip sec ≠ "" && (pyStrip sec).length > 50

/-- The idea built from the `i`-th qualifying section in
`create_fallback_ideas` (`src/nodes/extract_ideas_node.py`, loop body). -/
def fallbackIdeaOfSection (topic : String) (i : Nat) (sec : String) : ContentIdea :=
  let lines := pySplit (pyStrip sec) "\n"
  let title0 := pyStrip (lines.headD "")
  let title :=
    if pyStartsWith title0 "1." || pyStartsWith title0 "2." || pyStartsWith title0 "3." ||
        pyStartsWith title0 "4." || pyStartsWith title0 "5." || pyStartsWith title0 "-" then
      pyStrip (pyDrop title0 2)
    else title0
  let joined := String.intercalate " " lines.tail
  let description := if joined.length > 200 then pyTake joined 200 ++ "..." else joined
  { title := if title = "" then "Content Idea " ++ toString (i + 1) else title
    description := if description = "" then "Generated idea based on " ++ topic else description
    key_points := ["Key insight 1", "Key insight 2", "Key insight 3"]
    target_audience := "Business professionals and thought leaders"
    inspiration_sources := (List.range (min 3 (i + 1))).map (fun j => "Video " ++ toString (j + 1)) }

/-- Model of `create_fallback_ideas(response_text, topic)`
(`src/nodes/extract_ideas_node.py`): split the raw response on blank lines
(the sections), keep at most the first two sections, and build one idea for
every section whose stripped text is non-empty and longer than 50
characters. -/
def create_fallback_ideas (response_text topic : String) : List ContentIdea :=
  (((pySplit response_text "\n\n").take 2).enum.filter
      (fun p => sectionQualifies p.2)).map
    (fun p => fallbackIdeaOfSection topic p.1 p.2)

/-- Model of the response-parsing part of `generate_linkedin_post`
(`src/nodes/content_writer_node.py`, lines 193-253): strip the response,
take the first line as title, walk the remaining lines collecting `#`-tag
tokens and hashtag-stripped content lines, with the documented empty-content
fallbacks and hashtag synthesis from the idea title. -/
def parseLinkedInPost (respContent : String) (selected_idea : ContentIdea) : LinkedInPost :=
  let response_text := pyStrip respContent
  let lines := pySplit response_text "\n"
  let title := pyStrip (lines.headD "")
  let step := fun (acc : List String × List String) (line : String) =>
    let line := pyStrip line
    if line = "" then acc
    else if pyStartsWith line "#" || line.data.contains '#' then
      let (ms, stripped) := hashScan line
      let content_line := pyStrip stripped
      (acc.1 ++ ms, if content_line ≠ "" then acc.2 ++ [content_line] else acc.2)
    else (acc.1, acc.2 ++ [line])
  let scanned := lines.tail.foldl step ([], [])
  let hashtags := scanned.1
  let content := pyStrip (String.intercalate "\n" scanned.2)
  let content := if content = "" then pyStrip (String.intercalate "\n" lines.tail) else content
  let content := if content = "" then response_text else content
  let hashtags :=
    if hashtags.isEmpty then
      ((pyWords selected_idea.title).take 3).map
        (fun w => "#" ++ String.mk ((w.data.filter isAsciiAlnum).map Char.toLower))
    else hashtags
  { title := title, content := content, hashtags := hashtags,
    call_to_action := "Connect with me for more insights!",
    estimated_engagement := "Medium" }

/-! ## Stage nodes

Each node is `Env → AgentState → Except String Delta`: `Except.error`
models an exception raised past the node's own body, `Except.ok` the dict
the Python function returns.  `Env` carries the outcomes of the external
calls made inside the node bodies. -/

/-- Outcomes of the external collaborators consulted inside node bodies:
present credentials, the scraper result, the parsed idea list produced by
`generate_content_ideas` (LLM call plus parsing, including its internal
fallback), the raw LLM response text of the content writer, and the image
returned by `generate_image_with_kie_ai`.  An `Except.error` value models
the corresponding call raising an exception inside the node's `try` block. -/
structure Env where
  groq_api_key : Option String := some "gk"
  apify_token : Option String := some "at"
  scrape : Except String (List ScrapedContent) := .ok []
  ideas : Except String (List ContentIdea) := .ok []
  postResponse : Except String String := .ok ""
  image : Except String GeneratedImage := .error "down"
  deriving Repr

/-- Model of `input_node` (`src/nodes/input_node.py`): resolve the topic
(falling back to the most recent user message), raise if none, otherwise
reset the state fields to their initial defaults. -/
def input_node (s : AgentState) : Except String Delta :=
  let topic :=
    if s.topic = "" then
      (((s.messages.reverse).find? (fun m => m.role = "user")).map Msg.content).getD ""
    else s.topic
  if topic = "" then
    .error "No topic provided. Please provide a topic for content generation."
  else
    .ok { topic := some topic,
          scraped_content := some [], scraping_status := some "pending",
          scraping_errors := some [],
          content_ideas := some [], selected_idea := some none,
          research_status := some "pending",
          linkedin_post := some none, writing_status := some "pending",
          generated_image := some none, image_status := some "pending",
          docs_status := some "pending",
          user_approval := some none, approval_feedback := some none,
          linkedin_post_id := some none, posting_status := some "pending",
          workflow_status := some "initialized", error_message := some none,
          messages := [⟨"system", "LinkedIn Content Automation Agent initialized. Topic: " ++ topic⟩,
                       ⟨"user", "Please create LinkedIn content about: " ++ topic⟩] }

/-- Model of `scraping_node` (`src/nodes/scraping_node.py`): raise without a
topic or Apify token; otherwise report the scraper's result or the caught
exception as a failed delta. -/
def scraping_node (env : Env) (s : AgentState) : Except String Delta :=
  if s.topic = "" then .error "No topic provided for scraping"
  else
    match env.apify_token with
    | none => .error "APIFY_TOKEN environment variable not set"
    | some _ =>
      match env.scrape with
      | .ok l =>
        .ok { scraped_content := some l, scraping_status := some "completed",
              workflow_status := some "scraping",
              messages := [⟨"system", "Successfully scraped " ++ toString l.length ++
                            " YouTube videos for topic: " ++ s.topic⟩] }
      | .error e =>
        let error_msg := "Error during scraping: " ++ e
        .ok { scraping_status := some "failed", scraping_errors := some [error_msg],
              workflow_status := some "failed", error_message := some (some error_msg),
              messages := [⟨"system", "Scraping failed: " ++ error_msg⟩] }

/-- Model of `extract_ideas_node` (`src/nodes/extract_ideas_node.py`): raise
without a Groq key; fail without scraped content; otherwise report the idea
list produced by `generate_content_ideas` or the caught exception. -/
def extract_ideas_node (env : Env) (s : AgentState) : Except String Delta :=
  match env.groq_api_key with
  | none => .error "GROQ_API_KEY environment variable not set"
  | some _ =>
    if s.scraped_content.isEmpty then
      .ok { content_ideas := some [], workflow_status := some "failed",
            error_message := some (some "No scraped content available for idea extraction"),
            messages := [⟨"system", "No scraped content available for idea extraction"⟩] }
    else
      match env.ideas with
      | .ok ideas =>
        .ok { content_ideas := some ideas, workflow_status := some "awaiting_choice",
              messages := [⟨"system", "Successfully generated " ++ toString ideas.length ++
                            " content ideas from " ++ toString s.scraped_content.length ++
                            " scraped videos. Please choose which idea you'd like to develop into content."⟩] }
      | .error e =>
        let error_msg := "Error during idea extraction: " ++ e
        .ok { content_ideas := some [], workflow_status := some "failed",
              error_message := some (some error_msg),
              messages := [⟨"system", "Idea extraction failed: " ++ error_msg⟩] }

/-- Model of `choice_node` (`src/nodes/choice_node.py`): validate that
exactly two ideas exist, pause when no choice was supplied, reject choices
outside 1..2, otherwise promote the chosen idea. -/
def choice_node (s : AgentState) : Except String Delta :=
  if s.content_ideas.isEmpty then
    .ok { workflow_status := some "failed",
          error_message := some (some "No content ideas available for selection"),
          messages := [⟨"system", "No content ideas available for selection"⟩] }
  else if s.content_ideas.length ≠ 2 then
    let m := "Expected 2 content ideas, but found " ++ toString s.content_ideas.length
    .ok { workflow_status := some "failed", error_message := some (some m),
          messages := [⟨"system", m⟩] }
  else
    match s.user_choice with
    | none =>
      .ok { workflow_status := some "awaiting_choice",
            messages := [⟨"system", "Content ideas generated successfully. Awaiting user choice."⟩] }
    | some c =>
      if c ≠ 1 && c ≠ 2 then
        let m := "Invalid choice: " ++ toString c ++ ". Please choose 1 or 2."
        .ok { workflow_status := some "failed", error_message := some (some m),
              messages := [⟨"system", m⟩] }
      else
        match s.content_ideas.get? (c - 1).toNat with
        | some idea =>
          .ok { selected_idea := some (some idea), workflow_status := some "idea_selected",
                messages := [⟨"system", "Selected idea: " ++ idea.title ++ "\n\n" ++ idea.description⟩] }
        | none => .error "IndexError: list index out of range"

/-- Model of `content_writer_node` (`src/nodes/content_writer_node.py`):
raise without a Groq key; fail without a selected idea; otherwise parse the
LLM's raw response into a post, or report the caught exception. -/
def content_writer_node (env : Env) (s : AgentState) : Except String Delta :=
  match env.groq_api_key with
  | none => .error "GROQ_API_KEY environment variable not set"
  | some _ =>
    match s.selected_idea with
    | none =>
      .ok { workflow_status := some "failed",
            error_message := some (some "No selected idea available for content writing"),
            messages := [⟨"system", "No selected idea available for content writing"⟩] }
    | some idea =>
      match env.postResponse with
      | .ok resp =>
        let post := parseLinkedInPost resp idea
        .ok { linkedin_post := some (some post), writing_status := some "completed",
              workflow_status := some "writing_completed",
              messages := [⟨"system", "Successfully created LinkedIn post: " ++ post.title⟩] }
      | .error e =>
        let error_msg := "Error during content writing: " ++ e
        .ok { linkedin_post := some none, writing_status := some "failed",
              workflow_status := some "failed", error_message := some (some error_msg),
              messages := [⟨"system", "Content writing failed: " ++ error_msg⟩] }

/-- Model of `image_generation_node` (`src/nodes/image_generation_node.py`):
fail without a post; otherwise report the generated image or the caught
exception (network error, remote failure, or poll timeout). -/
def image_generation_node (env : Env) (s : AgentState) : Except String Delta :=
  match s.linkedin_post with
  | none =>
    .ok { workflow_status := some "failed",
          error_message := some (some "No LinkedIn post available for image generation"),
          messages := [⟨"system", "No LinkedIn post available for image generation"⟩] }
  | some _ =>
    match env.image with
    | .ok g =>
      .ok { generated_image := some (some g), image_status := some "completed",
            workflow_status := some "imaging_completed",
            messages := [⟨"system", "Successfully generated image: " ++ g.image_description⟩] }
    | .error e =>
      let error_msg := "Error during image generation: " ++ e
      .ok { generated_image := some none, image_status := some "failed",
            workflow_status := some "failed", error_message := some (some error_msg),
            messages := [⟨"system", "Image generation failed: " ++ error_msg⟩] }

/-- Model of `approval_node` (`src/nodes/approval_node.py`): fail without a
post; otherwise record the console decision (the `input()` loop blocks until
an explicit yes or no, passed here as `decision`). -/
def approval_node (s : AgentState) (decision : Bool) : Except String Delta :=
  match s.linkedin_post with
  | none =>
    .ok { workflow_status := some "failed",
          error_message := some (some "No LinkedIn post available for approval"),
          messages := [⟨"system", "No LinkedIn post available for approval"⟩] }
  | some _ =>
    if decision then
      .ok { user_approval := some (some true), promotion_status := some "awaiting_approval",
            workflow_status := some "promotion",
            messages := [⟨"system", "User approved the promotional content for LinkedIn posting"⟩] }
    else
      .ok { user_approval := some (some false), promotion_status := some "awaiting_approval",
            workflow_status := some "promotion",
            messages := [⟨"system", "User rejected the promotional content"⟩] }

/-- Conditional router after `choice` (`src/graph.py`, `route_after_choice`). -/
def route_after_choice (s : AgentState) : String :=
  if s.selected_idea.isSome then "content_writer" else "__end__"

/-- Conditional router after `approval`
(`src/product_promotion_graph.py`, `route_after_approval`): publish only on
an explicit `True`. -/
def route_after_approval (s : AgentState) : String :=
  if s.user_approval = some true then "linkedin_posting" else "__end__"

/-! ## The compiled main graph (`src/graph.py`, `create_linkedin_agent_graph`)

LangGraph executes the statically wired stages in sequence, merging each
returned dict into the state; the one conditional edge sits after `choice`.
An uncaught exception aborts the invocation. -/

/-- Shape shared by all stage nodes once the external outcomes are fixed. -/
abbrev NodeFn := Env → AgentState → Except String Delta

/-- Run a statically wired chain of stages: returns the per-stage merged
states (labelled by stage name), the state reached, and the uncaught
exception that aborted the chain, if any. -/
def runNodes (env : Env) : List (String × NodeFn) → AgentState →
    List (String × AgentState) × AgentState × Option String
  | [], s => ([], s, none)
  | (n, f) :: rest, s =>
    match f env s with
    | .error e => ([], s, some e)
    | .ok d =>
      let s1 := merge s d
      let (tr, sf, ab) := runNodes env rest s1
      ((n, s1) :: tr, sf, ab)

/-- The static chain up to the conditional edge:
`input -> scraping -> extract_ideas -> choice`. -/
def mainStages : List (String × NodeFn) :=
  [("input", fun _ s => input_node s),
   ("scraping", scraping_node),
   ("extract_ideas", extract_ideas_node),
   ("choice", fun _ s => choice_node s)]

/-- The static chain behind the conditional edge:
`content_writer -> image_generation`. -/
def tailStages : List (String × NodeFn) :=
  [("content_writer", content_writer_node),
   ("image_generation", image_generation_node)]

/-- One invocation of the compiled main graph from an input state: the
labelled list of states produced after each executed stage, plus the
uncaught exception if the run aborted. -/
def runAgent (env : Env) (s0 : AgentState) : List (String × AgentState) × Option String :=
  let (tr, s4, ab) := runNodes env mainStages s0
  match ab with
  | some e => (tr, some e)
  | none =>
    if route_after_choice s4 = "content_writer" then
      let (tr2, _, ab2) := runNodes env tailStages s4
      (tr ++ tr2, ab2)
    else (tr, none)

/-- The inputs dict built by `run_linkedin_agent` (`src/graph.py`): a topic,
one user message, and the optional pre-supplied choice; every other channel
starts at its default. -/
def mkInputs (topic : String) (uc : Option Int) : AgentState :=
  { topic := topic,
    messages := [⟨"user", "Create LinkedIn content about: " ++ topic⟩],
    user_choice := uc }

/-! ## The bounded image-job poll loop
(`src/nodes/image_generation_node.py`, `generate_image_with_kie_ai`) -/

/-- Status reported by one `record-info` poll of the KIE backend. -/
inductive KieStatus
  | pending
  | success
  | failed
  deriving Repr, DecidableEq

/-- Result of the poll loop, each carrying the number of polls performed. -/
inductive KieOutcome
  | Success (polls : Nat)
  | RemoteFailure (polls : Nat)
  | Timeout (polls : Nat)
  deriving Repr, DecidableEq

/-- Wall-clock budget of the poll loop: `max_wait_time = 120` seconds. -/
def maxWaitTime : Nat := 120

/-- Fixed interval between polls: `poll_interval = 5` seconds. -/
def pollInterval : Nat := 5

/-- The loop `while time.time() - start_time < max_wait_time` of
`generate_image_with_kie_ai`: poll; on `SUCCESS` stop with the result, on
`FAILED` raise, otherwise sleep `poll_interval` and repeat.  With
instantaneous polls and exact sleeps, the elapsed time before the `k`-th
poll is `pollInterval * (k - 1)`, so the loop body is entered exactly while
`polls * pollInterval < maxWaitTime`; `ticksLeft` counts the loop entries
still permitted and `backend n` is the status the backend reports on poll
`n + 1`. -/
def kiePollAux (backend : Nat → KieStatus) : Nat → Nat → KieOutcome
  | 0, polls => .Timeout polls
  | ticksLeft + 1, polls =>
    match backend polls with
    | .success => .Success (polls + 1)
    | .failed => .RemoteFailure (polls + 1)
    | .pending => kiePollAux backend ticksLeft (polls + 1)

/-- The whole bounded wait of `generate_image_with_kie_ai` against a given
backend, starting with zero elapsed time and zero polls performed. -/
def kiePollLoop (backend : Nat → KieStatus) : KieOutcome :=
  kiePollAux backend (maxWaitTime / pollInterval) 0

/-! ## Derived predicates and fixed example data -/

/-- Some status field of the state equals `"failed"`. -/
def statusFailed (s : AgentState) : Prop :=
  s.scraping_status = "failed" ∨ s.research_status = "failed" ∨ s.writing_status = "failed" ∨
  s.image_status = "failed" ∨ s.docs_status = "failed" ∨ s.posting_status = "failed" ∨
  s.promotion_status = "failed" ∨ s.workflow_status = "failed"

instance (s : AgentState) : Decidable (statusFailed s) := by
  unfold statusFailed; infer_instance

/-- The error/status invariant: `error_message` is set iff some status
equals `"failed"`. -/
def errorInvariant (s : AgentState) : Prop :=
  s.error_message.isSome ↔ statusFailed s

instance (s : AgentState) : Decidable (errorInvariant s) := by
  unfold errorInvariant; infer_instance

/-- A delta writes `"failed"` into some status field. -/
def deltaSetsFailed (d : Delta) : Prop :=
  d.scraping_status = some "failed" ∨ d.research_status = some "failed" ∨
  d.writing_status = some "failed" ∨ d.image_status = some "failed" ∨
  d.docs_status = some "failed" ∨ d.posting_status = some "failed" ∨
  d.promotion_status = some "failed" ∨ d.workflow_status = some "failed"

/-- A delta writes a (present) error message. -/
def deltaSetsError (d : Delta) : Prop :=
  ∃ m, d.error_message = some (some m)

/-- A fixed concrete idea used by example states. -/
def ideaW : ContentIdea :=
  ⟨"AI Leadership", "How AI changes leadership", ["p1", "p2"], "executives", ["Video 1"]⟩

/-- A second concrete idea, distinct from `ideaW`. -/
def ideaW2 : ContentIdea :=
  ⟨"Remote Teams", "Lessons from remote work", ["q1"], "managers", ["Video 2"]⟩

/-- A fixed concrete post used by example states. -/
def postW : LinkedInPost :=
  ⟨"T", "C", ["#t"], "cta", "Medium"⟩

/-! ## Helper lemmas -/

theorem length_filter_enumFrom {α : Type} (p : α → Bool) :
    ∀ (l : List α) (n : Nat),
      ((List.enumFrom n l).filter (fun x => p x.2)).length = l.countP p := by
  intro l
  induction l with
  | nil => intro n; rfl
  | cons a t ih =>
    intro n
    cases h : p a <;>
      simp [List.enumFrom, List.filter_cons, h, List.countP_cons, ih]

theorem ne_empty_of_append_left {a : String} (t : String) (ha : a.length ≠ 0) :
    a ++ t ≠ "" := by
  intro h
  have hlen := congrArg String.length h
  rw [String.length_append] at hlen
  have h0 : ("" : String).length = 0 := rfl
  rw [h0] at hlen
  exact ha (Nat.eq_zero_of_add_eq_zero_right hlen)

theorem kiePollAux_pending (backend : Nat → KieStatus)
    (h : ∀ n, backend n = KieStatus.pending) :
    ∀ t p, kiePollAux backend t p = KieOutcome.Timeout (p + t) := by
  intro t
  induction t with
  | zero => intro p; rfl
  | succ t ih =>
    intro p
    simp only [kiePollAux, h, ih]
    congr 1
    omega

/-- The delta carried by an `Except.ok` node result (empty delta on error). -/
def nodeDelta (r : Except String Delta) : Delta :=
  match r with
  | .ok d => d
  | .error _ => {}

/-- The exception message carried by an `Except.error` node result. -/
def nodeRaise (r : Except String Delta) : Option String :=
  match r with
  | .ok _ => none
  | .error e => some e

/-- The reset delta `input_node` returns for a resolved topic. -/
def inputResetDelta (topic : String) : Delta :=
  { topic := some topic,
    scraped_content := some [], scraping_status := some "pending",
    scraping_errors := some [],
    content_ideas := some [], selected_idea := some none,
    research_status := some "pending",
    linkedin_post := some none, writing_status := some "pending",
    generated_image := some none, image_status := some "pending",
    docs_status := some "pending",
    user_approval := some none, approval_feedback := some none,
    linkedin_post_id := some none, posting_status := some "pending",
    workflow_status := some "initialized", error_message := some none,
    messages := [⟨"system", "LinkedIn Content Automation Agent initialized. Topic: " ++ topic⟩,
                 ⟨"user", "Please create LinkedIn content about: " ++ topic⟩] }

theorem input_node_resolves (s : AgentState) (h : s.topic ≠ "") :
    input_node s = Except.ok (inputResetDelta s.topic) := by
  simp [input_node, h, inputResetDelta]

/-- The topic `input_node` resolves from the inputs dict built by
`run_linkedin_agent`: the given topic, or else the content of the one user
message (which is never empty, being prefixed by a fixed string). -/
def resolvedTopic (topic : String) : String :=
  if topic = "" then "Create LinkedIn content about: " ++ topic else topic

theorem resolvedTopic_ne (topic : String) : resolvedTopic topic ≠ "" := by
  unfold resolvedTopic
  by_cases h : topic = ""
  · subst h; decide
  · simp [h]

theorem input_on_mkInputs (topic : String) (uc : Option Int) :
    input_node (mkInputs topic uc) = Except.ok (inputResetDelta (resolvedTopic topic)) := by
  by_cases h : topic = ""
  · subst h; simp [input_node, mkInputs, resolvedTopic, inputResetDelta]
  · simp [input_node, mkInputs, resolvedTopic, h, inputResetDelta]

/-- The backend that answers `pending` on every poll. -/
def constPending : Nat → KieStatus := fun _ => KieStatus.pending

/-- The backend of testable property 4: `pending` on polls 1-2, `success`
on poll 3. -/
def pendingTwice : Nat → KieStatus :=
  fun n => if n < 2 then KieStatus.pending else KieStatus.success

/-- The raw response of testable property 3. -/
def c8Input : String := "My Title\nSome insight here.\n#ai #leadership"

/-! ## Claim theorems -/

/-- C1, counterexample: the idea-list fallback does NOT pad to two records.
On the empty raw response (envelope parsing having failed),
`create_fallback_ideas` returns the empty list — not a populated list of
exactly two `ContentIdea` records. -/
theorem C1_counterexample :
    create_fallback_ideas "" "ai" = [] ∧ (create_fallback_ideas "" "ai").length ≠ 2 := by
  decide

/-- C1 (amended): the idea-list fallback never raises, but it does not pad.
For every raw response text, `create_fallback_ideas` returns exactly one
`ContentIdea` per qualifying section (stripped text non-empty and longer
than 50 characters) among the first two blank-line-separated sections of
the raw text — hence between zero and two ideas, with no placeholder
padding when fewer than two sections qualify. -/
theorem C1_fallback_ideas_count (text topic : String) :
    (create_fallback_ideas text topic).length =
      ((pySplit text "\n\n").take 2).countP sectionQualifies ∧
    (create_fallback_ideas text topic).length ≤ 2 := by
  have h1 : (create_fallback_ideas text topic).length =
      ((pySplit text "\n\n").take 2).countP sectionQualifies := by
    unfold create_fallback_ideas
    rw [List.length_map]
    simpa [List.enum] using
      length_filter_enumFrom sectionQualifies ((pySplit text "\n\n").take 2) 0
  refine ⟨h1, ?_⟩
  rw [h1]
  calc ((pySplit text "\n\n").take 2).countP sectionQualifies
      ≤ ((pySplit text "\n\n").take 2).length := List.countP_le_length _
    _ ≤ 2 := List.length_take_le _ _

/-- C4: the image-job poller polls on a fixed 5-unit interval under a
120-unit budget: the backend that is pending on polls 1-2 and succeeds on
poll 3 yields `Success` after exactly 3 polls, and a backend that always
reports pending yields `Timeout` after exactly
`ceil(budget / interval) = 24` polls and no more. -/
theorem C4_poll_loop_bounds :
    kiePollLoop pendingTwice = KieOutcome.Success 3 ∧
    (maxWaitTime + pollInterval - 1) / pollInterval = 24 ∧
    ∀ backend : Nat → KieStatus, (∀ n, backend n = KieStatus.pending) →
      kiePollLoop backend =
        KieOutcome.Timeout ((maxWaitTime + pollInterval - 1) / pollInterval) := by
  refine ⟨by decide, by decide, ?_⟩
  intro b hb
  rw [kiePollLoop, kiePollAux_pending b hb]
  decide

/-- Witness for C4 at the constantly-pending backend. -/
theorem C4_poll_loop_bounds_witness :
    (∀ n, constPending n = KieStatus.pending) ∧
    kiePollLoop constPending =
      KieOutcome.Timeout ((maxWaitTime + pollInterval - 1) / pollInterval) :=
  ⟨fun _ => rfl, C4_poll_loop_bounds.2.2 constPending (fun _ => rfl)⟩

/-- C8: heuristic reconstruction of a post from envelope-free raw text takes
the first line as title, collects the hashtag tokens from the remaining
lines in order, strips them from the body, and joins the remaining
non-empty lines as content; on the input
`"My Title\nSome insight here.\n#ai #leadership"` it yields title
`"My Title"`, hashtags `["#ai", "#leadership"]`, and content
`"Some insight here."`. -/
theorem C8_heuristic_reconstruction :
    (parseLinkedInPost c8Input ideaW).title = "My Title" ∧
    (parseLinkedInPost c8Input ideaW).hashtags = ["#ai", "#leadership"] ∧
    (parseLinkedInPost c8Input ideaW).content = "Some insight here." ∧
    ∀ (resp : String) (idea : ContentIdea),
      (parseLinkedInPost resp idea).title =
        pyStrip ((pySplit (pyStrip resp) "\n").headD "") := by
  refine ⟨by decide, by decide, by decide, ?_⟩
  intro resp idea
  rfl

/-- C3: with exactly two distinct ideas `[A, B]`, choice `1` selects `A`
with status `idea_selected`, choice `2` selects `B`, and a missing choice
yields the suspension status `awaiting_choice` and leaves `selected_idea`
unset (the delta does not carry the key). -/
theorem C3_choice_selection (s : AgentState) (A B : ContentIdea)
    (hAB : s.content_ideas = [A, B]) (hne : A ≠ B) :
    (∃ d, choice_node { s with user_choice := some 1 } = Except.ok d ∧
      d.selected_idea = some (some A) ∧ d.workflow_status = some "idea_selected") ∧
    (∃ d, choice_node { s with user_choice := some 2 } = Except.ok d ∧
      d.selected_idea = some (some B) ∧ d.workflow_status = some "idea_selected") ∧
    (∃ d, choice_node { s with user_choice := none } = Except.ok d ∧
      d.workflow_status = some "awaiting_choice" ∧ d.selected_idea = none ∧
      d.error_message = none) := by
  have e1 : choice_node { s with user_choice := some 1 } = Except.ok
      { selected_idea := some (some A), workflow_status := some "idea_selected",
        messages := [⟨"system", "Selected idea: " ++ A.title ++ "\n\n" ++ A.description⟩] } := by
    simp [choice_node, hAB]
  have e2 : choice_node { s with user_choice := some 2 } = Except.ok
      { selected_idea := some (some B), workflow_status := some "idea_selected",
        messages := [⟨"system", "Selected idea: " ++ B.title ++ "\n\n" ++ B.description⟩] } := by
    simp [choice_node, hAB]
  have e3 : choice_node { s with user_choice := none } = Except.ok
      { workflow_status := some "awaiting_choice",
        messages := [⟨"system", "Content ideas generated successfully. Awaiting user choice."⟩] } := by
    simp [choice_node, hAB]
  exact ⟨⟨_, e1, rfl, rfl⟩, ⟨_, e2, rfl, rfl⟩, ⟨_, e3, rfl, rfl, rfl⟩⟩

/-- Witness for C3 on a concrete two-idea state. -/
theorem C3_choice_selection_witness :
    ({ content_ideas := [ideaW, ideaW2] } : AgentState).content_ideas = [ideaW, ideaW2] ∧
    ideaW ≠ ideaW2 ∧
    (∃ d, choice_node { ({ content_ideas := [ideaW, ideaW2] } : AgentState) with
        user_choice := some 1 } = Except.ok d ∧
      d.selected_idea = some (some ideaW) ∧ d.workflow_status = some "idea_selected") :=
  ⟨rfl, by decide,
    (C3_choice_selection { content_ideas := [ideaW, ideaW2] } ideaW ideaW2 rfl (by decide)).1⟩

/-- C5: invoking the selection stage with an idea count different from two
is a validation failure: the delta reports status `failed`, carries a
populated error message naming the found count (for a non-zero count the
count's digits appear verbatim; for zero the fixed message reports that no
ideas are available), and does not set `selected_idea`. -/
theorem C5_choice_validation (s : AgentState) (h : s.content_ideas.length ≠ 2) :
    ∃ d m, choice_node s = Except.ok d ∧ d.workflow_status = some "failed" ∧
      d.error_message = some (some m) ∧ m ≠ "" ∧ d.selected_idea = none ∧
      ((s.content_ideas = [] ∧ m = "No content ideas available for selection") ∨
        m = "Expected 2 content ideas, but found " ++ toString s.content_ideas.length) := by
  by_cases he : s.content_ideas = []
  · have e : choice_node s = Except.ok
        { workflow_status := some "failed",
          error_message := some (some "No content ideas available for selection"),
          messages := [⟨"system", "No content ideas available for selection"⟩] } := by
      simp [choice_node, he]
    exact ⟨_, _, e, rfl, rfl, by decide, rfl, Or.inl ⟨he, rfl⟩⟩
  · have e : choice_node s = Except.ok
        { workflow_status := some "failed",
          error_message := some (some ("Expected 2 content ideas, but found " ++
            toString s.content_ideas.length)),
          messages := [⟨"system", "Expected 2 content ideas, but found " ++
            toString s.content_ideas.length⟩] } := by
      simp [choice_node, he, h, List.isEmpty_iff]
    exact ⟨_, _, e, rfl, rfl, ne_empty_of_append_left _ (by decide), rfl, Or.inr rfl⟩

/-- Witness for C5 on the empty-ideas state. -/
theorem C5_choice_validation_witness :
    ({} : AgentState).content_ideas.length ≠ 2 ∧
    (∃ d m, choice_node {} = Except.ok d ∧ d.workflow_status = some "failed" ∧
      d.error_message = some (some m) ∧ m ≠ "" ∧ d.selected_idea = none ∧
      ((({} : AgentState).content_ideas = [] ∧
          m = "No content ideas available for selection") ∨
        m = "Expected 2 content ideas, but found " ++
          toString ({} : AgentState).content_ideas.length)) :=
  ⟨by decide, C5_choice_validation {} (by decide)⟩

/-- A concrete state holding a post, ready for the approval stage. -/
def approvalState : AgentState := { linkedin_post := some postW }

/-- The delta the approval stage returns on an approving decision. -/
def approvedDelta : Delta := nodeDelta (approval_node approvalState true)

/-- The delta the approval stage returns on a rejecting decision. -/
def rejectedDelta : Delta := nodeDelta (approval_node approvalState false)

/-- C6, counterexample: a rejection is NOT reported as a completed
(rejected) terminal state distinguishable from a suspension — the rejecting
delta carries exactly the same status markers as the approving one
(`workflow_status = "promotion"`, `promotion_status = "awaiting_approval"`),
and the approval stage always records an explicit boolean, never an unset
approval reported as a suspension. -/
theorem C6_counterexample :
    rejectedDelta.workflow_status = some "promotion" ∧
    rejectedDelta.promotion_status = some "awaiting_approval" ∧
    approvedDelta.workflow_status = rejectedDelta.workflow_status ∧
    approvedDelta.promotion_status = rejectedDelta.promotion_status ∧
    rejectedDelta.user_approval = some (some false) ∧
    approvedDelta.user_approval = some (some true) ∧
    rejectedDelta.workflow_status ≠ some "completed" := by
  decide

/-- C6 (amended): the approval fork routes to publishing exactly when the
approval flag is explicitly `True`, and both `False` and `None`/absent route
to end; but the approval stage always records an explicit boolean decision
(the console loop blocks until one is given) and reports the same
`workflow_status`/`promotion_status` pair for approval and rejection, so
rejection and absence are distinguishable only through the `user_approval`
field itself, not through a suspension-versus-terminal outcome marker. -/
theorem C6_approval_routing (s : AgentState) :
    (route_after_approval s = "linkedin_posting" ↔ s.user_approval = some true) ∧
    ∀ (dec : Bool) (post : LinkedInPost), s.linkedin_post = some post →
      ∃ d, approval_node s dec = Except.ok d ∧ d.user_approval = some (some dec) ∧
        d.workflow_status = some "promotion" ∧
        d.promotion_status = some "awaiting_approval" := by
  constructor
  · unfold route_after_approval
    by_cases h : s.user_approval = some true <;> simp [h]
  · intro dec post hp
    cases dec <;> simp [approval_node, hp]

/-- Witness for C6 on the concrete post-bearing state. -/
theorem C6_approval_routing_witness :
    approvalState.linkedin_post = some postW ∧
    (∃ d, approval_node approvalState false = Except.ok d ∧
      d.user_approval = some (some false) ∧ d.workflow_status = some "promotion" ∧
      d.promotion_status = some "awaiting_approval") :=
  ⟨rfl, (C6_approval_routing approvalState).2 false postW rfl⟩

/-- A previously-progressed state: a finished promotion workflow plus main
workflow progress, about to be fed back into the entry stage. -/
def priorState : AgentState :=
  { topic := "ai", promotion_status := "completed", selected_idea := some ideaW,
    content_ideas := [ideaW, ideaW2], linkedin_post := some postW,
    workflow_status := "failed", error_message := some "boom" }

/-- The state after re-running the entry stage on `priorState`. -/
def restartedState : AgentState :=
  merge priorState (nodeDelta (input_node priorState))

/-- C10, counterexample: the entry stage does NOT reset every status field —
`promotion_status` survives re-entry unchanged (here still `"completed"`,
not its initial default `"pending"`), even though the other progress fields
are wiped. -/
theorem C10_counterexample :
    restartedState.promotion_status = "completed" ∧
    restartedState.promotion_status ≠ "pending" ∧
    restartedState.selected_idea = none ∧
    restartedState.error_message = none := by
  decide

/-- C10 (amended): for every input state with a topic, the entry stage
returns a delta that overwrites `selected_idea`, `content_ideas`,
`linkedin_post`, `generated_image`, `user_approval`, `error_message`, and
every status field except `promotion_status` back to its initial default
(`promotion_status` is left untouched); re-invoking the workflow from its
entry point therefore erases all prior main-workflow progress rather than
resuming from a suspension point. -/
theorem C10_input_resets (s : AgentState) (h : s.topic ≠ "") :
    ∃ d, input_node s = Except.ok d ∧
      (merge s d).topic = s.topic ∧
      (merge s d).scraped_content = [] ∧
      (merge s d).scraping_status = "pending" ∧
      (merge s d).scraping_errors = [] ∧
      (merge s d).content_ideas = [] ∧
      (merge s d).selected_idea = none ∧
      (merge s d).research_status = "pending" ∧
      (merge s d).linkedin_post = none ∧
      (merge s d).writing_status = "pending" ∧
      (merge s d).generated_image = none ∧
      (merge s d).image_status = "pending" ∧
      (merge s d).docs_status = "pending" ∧
      (merge s d).user_approval = none ∧
      (merge s d).approval_feedback = none ∧
      (merge s d).linkedin_post_id = none ∧
      (merge s d).posting_status = "pending" ∧
      (merge s d).workflow_status = "initialized" ∧
      (merge s d).error_message = none ∧
      (merge s d).promotion_status = s.promotion_status := by
  refine ⟨inputResetDelta s.topic, input_node_resolves s h, ?_⟩
  simp [merge, inputResetDelta]

/-- An environment lacking the Groq credential. -/
def envNoGroq : Env := { groq_api_key := none }

/-- The default environment: all credentials present, the scraper
successfully returning no videos, idea parsing returning no ideas. -/
def envOk : Env := {}

/-- The abort message of a run against `envNoGroq`. -/
def c7Abort : Option String := (runAgent envNoGroq (mkInputs "ai" none)).2

/-- The stage names executed in a run against `envNoGroq`. -/
def c7Names : List String := ((runAgent envNoGroq (mkInputs "ai" none)).1).map Prod.fst

/-- C7, counterexample: a missing credential is NOT raised before the
engine starts and it does appear mid-run — with no Groq key the run
executes `input` and `scraping` and only then aborts with the raised
`ValueError`, which escapes the `extract_ideas` stage boundary instead of
being reported as a fail outcome; `content_writer_node` likewise throws
past its boundary when invoked without the key. -/
theorem C7_counterexample :
    c7Abort = some "GROQ_API_KEY environment variable not set" ∧
    c7Names = ["input", "scraping"] ∧
    nodeRaise (content_writer_node envNoGroq { selected_idea := some ideaW }) =
      some "GROQ_API_KEY environment variable not set" := by
  decide

/-- C7 (amended): credential checks run inside each stage body when the
stage executes: with the Groq key missing, `extract_ideas_node` and
`content_writer_node` raise a `ValueError` that escapes the stage boundary
mid-run (and `scraping_node` does the same for a missing Apify token);
with the key present these two stages never raise — every failure is then
returned as a delta. -/
theorem C7_credential_raises (env : Env) (s : AgentState) :
    (env.groq_api_key = none →
      extract_ideas_node env s = Except.error "GROQ_API_KEY environment variable not set" ∧
      content_writer_node env s = Except.error "GROQ_API_KEY environment variable not set") ∧
    (env.apify_token = none → s.topic ≠ "" →
      scraping_node env s = Except.error "APIFY_TOKEN environment variable not set") ∧
    (∀ k, env.groq_api_key = some k →
      (∃ d, extract_ideas_node env s = Except.ok d) ∧
      (∃ d, content_writer_node env s = Except.ok d)) := by
  refine ⟨?_, ?_, ?_⟩
  · intro hg
    constructor <;> simp [extract_ideas_node, content_writer_node, hg]
  · intro ha ht
    simp [scraping_node, ha, ht]
  · intro k hk
    constructor
    · rw [extract_ideas_node, hk]
      by_cases he : s.scraped_content.isEmpty <;>
        cases hi : env.ideas <;> simp [he, hi]
    · rw [content_writer_node, hk]
      cases hsel : s.selected_idea <;> cases hp : env.postResponse <;> simp [hsel, hp]

/-- Witness for C7 at concrete environments with and without the key. -/
theorem C7_credential_raises_witness :
    envNoGroq.groq_api_key = none ∧
    extract_ideas_node envNoGroq {} =
      Except.error "GROQ_API_KEY environment variable not set" ∧
    envOk.groq_api_key = some "gk" ∧
    (∃ d, content_writer_node envOk {} = Except.ok d) :=
  ⟨rfl, ((C7_credential_raises envNoGroq {}).1 rfl).1, rfl,
    ((C7_credential_raises envOk {}).2.2 "gk" rfl).2⟩

theorem runAgent_trace_spec (env : Env) (topic : String) (uc : Option Int) :
    (∀ p ∈ (runAgent env (mkInputs topic uc)).1, errorInvariant p.2) ∧
    (∀ s : AgentState, ("input", s) ∈ (runAgent env (mkInputs topic uc)).1 →
      s.error_message = none ∧ s.scraping_status = "pending" ∧ s.research_status = "pending" ∧
      s.writing_status = "pending" ∧ s.image_status = "pending" ∧ s.docs_status = "pending" ∧
      s.posting_status = "pending" ∧ s.promotion_status = "pending" ∧
      s.workflow_status = "initialized") ∧
    (∀ s : AgentState, ("extract_ideas", s) ∈ (runAgent env (mkInputs topic uc)).1 →
      s.workflow_status = "failed" →
      "choice" ∈ ((runAgent env (mkInputs topic uc)).1.map Prod.fst) ∧
      "content_writer" ∉ ((runAgent env (mkInputs topic uc)).1.map Prod.fst) ∧
      "image_generation" ∉ ((runAgent env (mkInputs topic uc)).1.map Prod.fst)) := by
  obtain ⟨gk, atk, scr, idr, pr, im⟩ := env
  simp only [runAgent, runNodes, mainStages, tailStages, input_on_mkInputs]
  rcases atk with _ | a0
  · simp [scraping_node, extract_ideas_node, choice_node, content_writer_node,
      image_generation_node, route_after_choice, merge, inputResetDelta, mkInputs,
      errorInvariant, statusFailed, resolvedTopic_ne topic] <;> decide
  rcases gk with _ | g
  · rcases scr with e | l <;>
      simp [scraping_node, extract_ideas_node, choice_node, content_writer_node,
        image_generation_node, route_after_choice, merge, inputResetDelta, mkInputs,
        errorInvariant, statusFailed, resolvedTopic_ne topic] <;> decide
  rcases scr with e | l
  · simp [scraping_node, extract_ideas_node, choice_node, content_writer_node,
      image_generation_node, route_after_choice, merge, inputResetDelta, mkInputs,
      errorInvariant, statusFailed, resolvedTopic_ne topic] <;> decide
  rcases l with _ | ⟨x, l⟩
  · simp [scraping_node, extract_ideas_node, choice_node, content_writer_node,
      image_generation_node, route_after_choice, merge, inputResetDelta, mkInputs,
      errorInvariant, statusFailed, resolvedTopic_ne topic] <;> decide
  rcases idr with e | li
  · simp [scraping_node, extract_ideas_node, choice_node, content_writer_node,
      image_generation_node, route_after_choice, merge, inputResetDelta, mkInputs,
      errorInvariant, statusFailed, resolvedTopic_ne topic] <;> decide
  rcases li with _ | ⟨A, li⟩
  · simp [scraping_node, extract_ideas_node, choice_node, content_writer_node,
      image_generation_node, route_after_choice, merge, inputResetDelta, mkInputs,
      errorInvariant, statusFailed, resolvedTopic_ne topic] <;> decide
  rcases li with _ | ⟨B, li⟩
  · simp [scraping_node, extract_ideas_node, choice_node, content_writer_node,
      image_generation_node, route_after_choice, merge, inputResetDelta, mkInputs,
      errorInvariant, statusFailed, resolvedTopic_ne topic] <;> decide
  rcases li with _ | ⟨C, li⟩
  case cons.cons.cons _ =>
    have h3 : ¬ (li.length + 1 + 1 + 1 = 2) := by omega
    simp [scraping_node, extract_ideas_node, choice_node, content_writer_node,
      image_generation_node, route_after_choice, merge, inputResetDelta, mkInputs,
      errorInvariant, statusFailed, resolvedTopic_ne topic, h3] <;> decide
  rcases uc with _ | c
  · simp [scraping_node, extract_ideas_node, choice_node, content_writer_node,
      image_generation_node, route_after_choice, merge, inputResetDelta, mkInputs,
      errorInvariant, statusFailed, resolvedTopic_ne topic] <;> decide
  by_cases hc1 : c = 1
  · subst hc1
    rcases pr with e | resp
    · simp [scraping_node, extract_ideas_node, choice_node, content_writer_node,
        image_generation_node, route_after_choice, merge, inputResetDelta, mkInputs,
        errorInvariant, statusFailed, resolvedTopic_ne topic] <;> decide
    rcases im with e | img <;>
      simp [scraping_node, extract_ideas_node, choice_node, content_writer_node,
        image_generation_node, route_after_choice, merge, inputResetDelta, mkInputs,
        errorInvariant, statusFailed, resolvedTopic_ne topic] <;> decide
  by_cases hc2 : c = 2
  · subst hc2
    rcases pr with e | resp
    · simp [scraping_node, extract_ideas_node, choice_node, content_writer_node,
        image_generation_node, route_after_choice, merge, inputResetDelta, mkInputs,
        errorInvariant, statusFailed, resolvedTopic_ne topic] <;> decide
    rcases im with e | img <;>
      simp [scraping_node, extract_ideas_node, choice_node, content_writer_node,
        image_generation_node, route_after_choice, merge, inputResetDelta, mkInputs,
        errorInvariant, statusFailed, resolvedTopic_ne topic] <;> decide
  · simp [scraping_node, extract_ideas_node, choice_node, content_writer_node,
      image_generation_node, route_after_choice, merge, inputResetDelta, mkInputs,
      errorInvariant, statusFailed, resolvedTopic_ne topic, hc1, hc2] <;> decide

theorem input_delta_fail_error (s : AgentState) (d : Delta)
    (h : input_node s = Except.ok d) : deltaSetsFailed d → deltaSetsError d := by
  intro hf
  by_cases ht : s.topic = ""
  · by_cases hm : ((s.messages.reverse.find? (fun m => m.role = "user")).map Msg.content).getD "" = ""
    · simp [input_node, ht, hm] at h
    · simp [input_node, ht, hm] at h
      subst h
      simp [deltaSetsFailed] at hf
  · simp [input_node, ht] at h
    subst h
    simp [deltaSetsFailed] at hf

theorem scraping_delta_fail_error (env : Env) (s : AgentState) (d : Delta)
    (h : scraping_node env s = Except.ok d) : deltaSetsFailed d → deltaSetsError d := by
  intro hf
  simp only [scraping_node] at h
  split at h
  · cases h
  · split at h
    · cases h
    · split at h
      · injection h with h
        subst h
        simp [deltaSetsFailed] at hf
      · injection h with h
        subst h
        exact ⟨_, rfl⟩

theorem extract_delta_fail_error (env : Env) (s : AgentState) (d : Delta)
    (h : extract_ideas_node env s = Except.ok d) : deltaSetsFailed d → deltaSetsError d := by
  intro hf
  simp only [extract_ideas_node] at h
  split at h
  · cases h
  · split at h
    · injection h with h
      subst h
      exact ⟨_, rfl⟩
    · split at h
      · injection h with h
        subst h
        simp [deltaSetsFailed] at hf
      · injection h with h
        subst h
        exact ⟨_, rfl⟩

theorem choice_delta_fail_error (s : AgentState) (d : Delta)
    (h : choice_node s = Except.ok d) : deltaSetsFailed d → deltaSetsError d := by
  intro hf
  simp only [choice_node] at h
  split at h
  · injection h with h
    subst h
    exact ⟨_, rfl⟩
  · split at h
    · injection h with h
      subst h
      exact ⟨_, rfl⟩
    · split at h
      · injection h with h
        subst h
        simp [deltaSetsFailed] at hf
      · split at h
        · injection h with h
          subst h
          exact ⟨_, rfl⟩
        · split at h
          · injection h with h
            subst h
            simp [deltaSetsFailed] at hf
          · cases h

theorem writer_delta_fail_error (env : Env) (s : AgentState) (d : Delta)
    (h : content_writer_node env s = Except.ok d) : deltaSetsFailed d → deltaSetsError d := by
  intro hf
  simp only [content_writer_node] at h
  split at h
  · cases h
  · split at h
    · injection h with h
      subst h
      exact ⟨_, rfl⟩
    · split at h
      · injection h with h
        subst h
        simp [deltaSetsFailed] at hf
      · injection h with h
        subst h
        exact ⟨_, rfl⟩

theorem image_delta_fail_error (env : Env) (s : AgentState) (d : Delta)
    (h : image_generation_node env s = Except.ok d) : deltaSetsFailed d → deltaSetsError d := by
  intro hf
  simp only [image_generation_node] at h
  split at h
  · injection h with h
    subst h
    exact ⟨_, rfl⟩
  · split at h
    · injection h with h
      subst h
      simp [deltaSetsFailed] at hf
    · injection h with h
      subst h
      exact ⟨_, rfl⟩

theorem approval_delta_fail_error (s : AgentState) (dec : Bool) (d : Delta)
    (h : approval_node s dec = Except.ok d) : deltaSetsFailed d → deltaSetsError d := by
  intro hf
  simp only [approval_node] at h
  split at h
  · injection h with h
    subst h
    exact ⟨_, rfl⟩
  · split at h
    · injection h with h
      subst h
      simp [deltaSetsFailed] at hf
    · injection h with h
      subst h
      simp [deltaSetsFailed] at hf

/-- The trace of a run in which `extract_ideas` fails (the scraper
successfully returns zero videos, so idea extraction reports a failed
delta). -/
def c2Trace : List (String × AgentState) := (runAgent envOk (mkInputs "ai" none)).1

/-- The stage names of `c2Trace`, in execution order. -/
def c2Names : List String := c2Trace.map Prod.fst

/-- The workflow status recorded right after the `extract_ideas` stage of
`c2Trace`. -/
def c2ExtractStatus : Option String :=
  Option.map AgentState.workflow_status (Option.map Prod.snd (c2Trace.get? 2))

/-- The error message recorded right after the `choice` stage of
`c2Trace`. -/
def c2ChoiceError : Option (Option String) :=
  Option.map AgentState.error_message (Option.map Prod.snd (c2Trace.get? 3))

/-- C2, counterexample: the engine does NOT stop advancing on a failed
stage — in a run whose `extract_ideas` stage returns a failed delta
(status `"failed"`), the statically wired next stage `choice` is still
invoked (it appears in the trace after `extract_ideas` and even overwrites
the error message). -/
theorem C2_counterexample :
    c2Names = ["input", "scraping", "extract_ideas", "choice"] ∧
    c2ExtractStatus = some "failed" ∧
    c2ChoiceError = some (some "No content ideas available for selection") := by
  decide

/-- C2 (amended): when a stage fails, the engine does not halt — the
statically wired successors of the failing stage still run; only the
conditional edge after `choice` gates progress.  Concretely: in every run
whose `extract_ideas` stage produced a failed state, the next static stage
`choice` is still invoked, while `content_writer` and `image_generation`
are skipped only because the router finds `selected_idea` unset. -/
theorem C2_failure_does_not_halt (env : Env) (topic : String) (uc : Option Int)
    (s : AgentState)
    (hmem : ("extract_ideas", s) ∈ (runAgent env (mkInputs topic uc)).1)
    (hfail : s.workflow_status = "failed") :
    "choice" ∈ ((runAgent env (mkInputs topic uc)).1.map Prod.fst) ∧
    "content_writer" ∉ ((runAgent env (mkInputs topic uc)).1.map Prod.fst) ∧
    "image_generation" ∉ ((runAgent env (mkInputs topic uc)).1.map Prod.fst) :=
  (runAgent_trace_spec env topic uc).2.2 s hmem hfail

/-- The state the `extract_ideas` stage produced in `c2Trace`. -/
def c2ExtractState : AgentState := (Option.map Prod.snd (c2Trace.get? 2)).getD {}

/-- The state the `input` stage produced in `c2Trace`. -/
def c2InputState : AgentState := (Option.map Prod.snd (c2Trace.get? 0)).getD {}

/-- Witness for C2 on the concrete failing run. -/
theorem C2_failure_does_not_halt_witness :
    (("extract_ideas", c2ExtractState) ∈ (runAgent envOk (mkInputs "ai" none)).1) ∧
    c2ExtractState.workflow_status = "failed" ∧
    ("choice" ∈ ((runAgent envOk (mkInputs "ai" none)).1.map Prod.fst) ∧
      "content_writer" ∉ ((runAgent envOk (mkInputs "ai" none)).1.map Prod.fst) ∧
      "image_generation" ∉ ((runAgent envOk (mkInputs "ai" none)).1.map Prod.fst)) :=
  ⟨by decide, by decide,
    C2_failure_does_not_halt envOk "ai" none c2ExtractState (by decide) (by decide)⟩

instance (d : Delta) : Decidable (deltaSetsFailed d) := by
  unfold deltaSetsFailed; infer_instance

/-- The failed delta the selection stage returns on an empty idea list. -/
def choiceFailDelta : Delta := nodeDelta (choice_node {})

/-- C9: in every state produced by a main-graph run, `error_message` is set
if and only if some status field equals `failed`; the state produced by the
entry stage has `error_message` unset with every stage-scoped status
`pending` (and the umbrella status `initialized`); and every stage delta
that writes `failed` into a status field also populates `error_message`. -/
theorem C9_error_invariant_holds :
    (∀ (env : Env) (topic : String) (uc : Option Int),
      ∀ p ∈ (runAgent env (mkInputs topic uc)).1, errorInvariant p.2) ∧
    (∀ (env : Env) (topic : String) (uc : Option Int) (s : AgentState),
      ("input", s) ∈ (runAgent env (mkInputs topic uc)).1 →
      s.error_message = none ∧ s.scraping_status = "pending" ∧
      s.research_status = "pending" ∧ s.writing_status = "pending" ∧
      s.image_status = "pending" ∧ s.docs_status = "pending" ∧
      s.posting_status = "pending" ∧ s.promotion_status = "pending" ∧
      s.workflow_status = "initialized") ∧
    (∀ (s : AgentState) (d : Delta), input_node s = Except.ok d →
      deltaSetsFailed d → deltaSetsError d) ∧
    (∀ (env : Env) (s : AgentState) (d : Delta), scraping_node env s = Except.ok d →
      deltaSetsFailed d → deltaSetsError d) ∧
    (∀ (env : Env) (s : AgentState) (d : Delta), extract_ideas_node env s = Except.ok d →
      deltaSetsFailed d → deltaSetsError d) ∧
    (∀ (s : AgentState) (d : Delta), choice_node s = Except.ok d →
      deltaSetsFailed d → deltaSetsError d) ∧
    (∀ (env : Env) (s : AgentState) (d : Delta), content_writer_node env s = Except.ok d →
      deltaSetsFailed d → deltaSetsError d) ∧
    (∀ (env : Env) (s : AgentState) (d : Delta), image_generation_node env s = Except.ok d →
      deltaSetsFailed d → deltaSetsError d) ∧
    (∀ (s : AgentState) (dec : Bool) (d : Delta), approval_node s dec = Except.ok d →
      deltaSetsFailed d → deltaSetsError d) :=
  ⟨fun env topic uc => (runAgent_trace_spec env topic uc).1,
   fun env topic uc => (runAgent_trace_spec env topic uc).2.1,
   input_delta_fail_error, scraping_delta_fail_error, extract_delta_fail_error,
   choice_delta_fail_error, writer_delta_fail_error, image_delta_fail_error,
   approval_delta_fail_error⟩

/-- Witness for C9 on the concrete run and the concrete failed delta. -/
theorem C9_error_invariant_holds_witness :
    (("input", c2InputState) ∈ (runAgent envOk (mkInputs "ai" none)).1) ∧
    errorInvariant c2InputState ∧
    choice_node {} = Except.ok choiceFailDelta ∧
    deltaSetsFailed choiceFailDelta ∧
    deltaSetsError choiceFailDelta :=
  ⟨by decide, C9_error_invariant_holds.1 envOk "ai" none _ (by decide), rfl, by decide,
    C9_error_invariant_holds.2.2.2.2.2.1 {} choiceFailDelta rfl (by decide)⟩

/-- Witness for C10 on the progressed concrete state. -/
theorem C10_input_resets_witness :
    priorState.topic ≠ "" ∧
    (∃ d, input_node priorState = Except.ok d ∧
      (merge priorState d).topic = priorState.topic ∧
      (merge priorState d).scraped_content = [] ∧
      (merge priorState d).scraping_status = "pending" ∧
      (merge priorState d).scraping_errors = [] ∧
      (merge priorState d).content_ideas = [] ∧
      (merge priorState d).selected_idea = none ∧
      (merge priorState d).research_status = "pending" ∧
      (merge priorState d).linkedin_post = none ∧
      (merge priorState d).writing_status = "pending" ∧
      (merge priorState d).generated_image = none ∧
      (merge priorState d).image_status = "pending" ∧
      (merge priorState d).docs_status = "pending" ∧
      (merge priorState d).user_approval = none ∧
      (merge priorState d).approval_feedback = none ∧
      (merge priorState d).linkedin_post_id = none ∧
      (merge priorState d).posting_status = "pending" ∧
      (merge priorState d).workflow_status = "initialized" ∧
      (merge priorState d).error_message = none ∧
      (merge priorState d).promotion_status = priorState.promotion_status) :=
  ⟨by decide, C10_input_resets priorState (by decide)⟩

end LinkedInAgent
